import Mathlib

/-!
Formal model of the p2panda node core: the materializer
(src/aquadoggo/src/materializer.rs), the publish pipeline
(src/aquadoggo/src/rpc/methods/publish_entry.rs) and the legacy
node RPC stub (src/node/src/rpc/api.rs).

Identity and addressing primitives (authors, hashes, log ids) are
content-addressed values whose only relevant operation here is equality,
so they are represented by `Nat`; field values carried by messages are
represented by `String` for text and other constructors for the
non-text kinds.  Database tables become association lists threaded
through the functions explicitly; Rust `panic!`/`unwrap` sites become
explicit error constructors of an `Except`.
-/

/-- `MessageAction` from p2panda_rs: the operation a message performs. -/
inductive MessageAction
  | create
  | update
  | delete
deriving DecidableEq, Repr

/-- `MessageValue` from p2panda_rs: a typed field value.  The
materializer only implements the `Text` kind; the other constructors
model the "unexpected kind" cases. -/
inductive MessageValue
  | text (value : String)
  | boolean (value : Bool)
  | integer (value : Int)
deriving DecidableEq, Repr

/-- `Message` from p2panda_rs: action, schema hash, optional target id
(`None` exactly for Create messages) and optional field map (`None`
for Delete messages, which carry no fields). -/
structure Message where
  action : MessageAction
  schema : Nat
  id : Option Nat
  fields : Option (List (String × MessageValue))
deriving DecidableEq, Repr

/-- `MessageFields::get`: lookup of a field by name. -/
def fieldsGet (fl : List (String × MessageValue)) (k : String) : Option MessageValue :=
  (fl.find? (fun p => p.1 == k)).map (fun p => p.2)

/-- One row of a per-schema projection table, with the column set
created by the materializer: id, author, message, date, seq_num. -/
structure Row where
  id : Nat
  author : Nat
  message : String
  date : String
  seqNum : Nat
deriving DecidableEq, Repr

/-- The materializer's database: one projection table per schema hash. -/
structure MatDb where
  tables : List (Nat × List Row)
deriving DecidableEq, Repr

/-- Rows of the projection table for a schema (empty if the table has
not been created yet). -/
def getTable (db : MatDb) (schema : Nat) : List Row :=
  match db.tables.find? (fun t => t.1 == schema) with
  | some t => t.2
  | none => []

/-- `CREATE TABLE IF NOT EXISTS`: ensure the projection table for a
schema exists. -/
def ensureTable (db : MatDb) (schema : Nat) : MatDb :=
  if (db.tables.find? (fun t => t.1 == schema)).isSome then db
  else ⟨db.tables ++ [(schema, [])]⟩

/-- Replace the row list of an existing projection table. -/
def setTable (db : MatDb) (schema : Nat) (rows : List Row) : MatDb :=
  ⟨db.tables.map (fun t => if t.1 == schema then (t.1, rows) else t)⟩

/-- The `panic!`/`unwrap` sites of the materializer.  Each constructor
is a process-aborting fault in the Rust source, not a recoverable
error value returned to the caller. -/
inductive MatPanic
  | missingFields
  | missingId
  | fieldMissing
  | unimplementedType
deriving DecidableEq, Repr

/-- The per-row effect of the materializer's UPDATE statement: it sets
only the message, date and seq_num columns of the row keyed by `id`. -/
def applyUpdate (id : Nat) (m d : String) (sn : Nat) (r : Row) : Row :=
  if r.id == id then { r with message := m, date := d, seqNum := sn } else r

/-- `materialize` from src/aquadoggo/src/materializer.rs: project one
validated `(author, message, seq_num)` event into the schema's
table.  Faithful to the source: `message.fields().unwrap()` first,
then table creation, then the row id (entry hash for Create, the
message's target id otherwise via `message.id().unwrap()`), then the
"message" and "date" field lookups (each panicking when absent or of
a non-text kind), then a row count for the id and an unconditional
UPDATE when the count is 1, INSERT otherwise. -/
def materialize (db : MatDb) (entryHash : Nat) (seqNum : Nat) (author : Nat)
    (message : Message) : Except MatPanic MatDb :=
  let schema := message.schema
  match message.fields with
  | none => .error .missingFields
  | some fields =>
    let db := ensureTable db schema
    match (match message.action with
           | .create => Except.ok entryHash
           | _ => match message.id with
                  | some i => Except.ok i
                  | none => Except.error MatPanic.missingId) with
    | .error e => .error e
    | .ok id =>
      match fieldsGet fields "message" with
      | none => .error .fieldMissing
      | some (.text fieldMessage) =>
        match fieldsGet fields "date" with
        | none => .error .fieldMissing
        | some (.text fieldDate) =>
          let rows := getTable db schema
          let count := (rows.filter (fun r => r.id == id)).length
          if count == 1 then
            .ok (setTable db schema (rows.map (applyUpdate id fieldMessage fieldDate seqNum)))
          else
            .ok (setTable db schema (rows ++ [⟨id, author, fieldMessage, fieldDate, seqNum⟩]))
        | some _ => .error .unimplementedType
      | some _ => .error .unimplementedType

/-- Modelled from the spec: the lipmaa skip-list rule ("a skip-list
index computed by a fixed combinatorial rule over the sequence
number — implement as a pure integer function lipmaa(seq_num) ->
seq_num").  The rule itself lives in the external bamboo crate; this
is the bamboo rule, pinned by the publish_entry.rs test vectors (the
entry at seq_num 4 skiplinks to seq_num 1, entries 2, 3, 5 and 6 need
no distinct skiplink).  Growth phase of the search: find the smallest
power of three `po3` with `(po3 - 1) / 2 >= n`. -/
def lipmaaGrow (n : Nat) : Nat → Nat → Nat → Nat × Nat
  | 0, m, po3 => (m, po3)
  | fuel + 1, m, po3 =>
    if m < n then lipmaaGrow n fuel ((po3 * 3 - 1) / 2) (po3 * 3) else (m, po3)

/-- Modelled from the spec: descent phase of the lipmaa rule (see
`lipmaaGrow`); repeatedly reduces the remainder `u` against
decreasing powers of three. -/
def lipmaaShrink : Nat → Nat → Nat → Nat → Nat × Nat
  | 0, _, m, po3 => (m, po3)
  | fuel + 1, u, m, po3 =>
    if u = 0 then (m, po3)
    else lipmaaShrink fuel (u % ((po3 - 1) / 2)) ((po3 - 1) / 2) (po3 / 3)

/-- Modelled from the spec: `lipmaa(seq_num)`, the sequence number the
entry at `seq_num` must skiplink to. -/
def lipmaa (n : Nat) : Nat :=
  let grown := lipmaaGrow n (n + 2) 1 3
  let m := grown.1
  let po3 := grown.2 / 3
  if m = n then n - po3
  else
    let shrunk := lipmaaShrink (n + 2) n m po3
    n - (if shrunk.1 = shrunk.2 then shrunk.2 else shrunk.1)

/-- Modelled from the spec: `SeqNum::is_skiplink_required` from
p2panda_rs — a distinct skiplink is needed exactly when the lipmaa
position differs from the backlink position. -/
def isSkiplinkRequired (n : Nat) : Bool :=
  lipmaa n != n - 1

/-- One row of the log registry (`logs` table): `(author, schema) →
log_id`, first-write-wins. -/
structure LogRow where
  author : Nat
  schema : Nat
  logId : Nat
deriving DecidableEq, Repr

/-- One row of the entry store (`entries` table), with the columns
bound by `Entry::insert` in publish_entry.rs: author, encoded entry
bytes, entry hash, log id, payload bytes, payload hash, seq num. -/
structure EntryRow where
  author : Nat
  entryBytes : Nat
  entryHash : Nat
  logId : Nat
  payloadBytes : Nat
  payloadHash : Nat
  seqNum : Nat
deriving DecidableEq, Repr

/-- The node's database: log registry plus append-only entry store. -/
structure Db where
  logs : List LogRow
  entries : List EntryRow
deriving DecidableEq, Repr

/-- Modelled from the spec: `Log::get(pool, author, schema)` (the
db/models module is not under src/) — "durable mapping (author,
schema) → log_id"; lookup with no side effect. -/
def logGet (logs : List LogRow) (author schema : Nat) : Option Nat :=
  (logs.find? (fun l => l.author == author && l.schema == schema)).map (fun l => l.logId)

/-- Modelled from the spec: `Entry::at_seq_num(pool, author, log_id,
seq_num)` (the db/models module is not under src/) — entries are
"retrievable by (author, log_id, seq_num)". -/
def entryAtSeqNum (entries : List EntryRow) (author logId seqNum : Nat) : Option EntryRow :=
  entries.find? (fun e => e.author == author && e.logId == logId && e.seqNum == seqNum)

/-- Helper for `entryLatest`: the entry with the greatest seq_num in a
list, preferring a later list position on ties. -/
def latestAux : List EntryRow → Option EntryRow
  | [] => none
  | e :: rest =>
    match latestAux rest with
    | none => some e
    | some a => if e.seqNum > a.seqNum then some e else some a

/-- Modelled from the spec: `Entry::latest(pool, author, log_id)` (the
db/models module is not under src/) — the "latest entry for a log",
i.e. the stored entry with the greatest seq_num. -/
def entryLatest (entries : List EntryRow) (author logId : Nat) : Option EntryRow :=
  latestAux (entries.filter (fun e => e.author == author && e.logId == logId))

/-- The decoded view of a signed entry, as used by publish_entry.rs:
author (from the encoded entry), entry hash, raw bytes, claimed
log id and seq num.  The claimed backlink/skiplink hashes are only
inspected inside the external bamboo verifier and are part of
`bytes`. -/
structure EntrySigned where
  author : Nat
  entryHash : Nat
  bytes : Nat
  logId : Nat
  seqNum : Nat
deriving DecidableEq, Repr

/-- An encoded message payload: schema hash, raw bytes, payload hash. -/
structure MessageEncoded where
  schema : Nat
  bytes : Nat
  hash : Nat
deriving DecidableEq, Repr

/-- `PublishEntryRequest`: the two encoded parameters of the
`panda_publishEntry` RPC method, after decoding. -/
structure PublishEntryRequest where
  entryEncoded : EntrySigned
  messageEncoded : MessageEncoded
deriving DecidableEq, Repr

/-- `PublishEntryResponse`: next-entry arguments returned on success. -/
structure PublishEntryResponse where
  entryHashBacklink : Option Nat
  entryHashSkiplink : Option Nat
  seqNum : Nat
  logId : Nat
deriving DecidableEq, Repr

/-- Failure modes of the publish pipeline.  The first three are the
`PublishEntryError` variants of publish_entry.rs;
`chainIntegrityFailure` stands for any error propagated from the
external `bamboo_rs_core::verify`; the `panic` constructors model the
`.expect`/`.unwrap` sites after the store write. -/
inductive PublishError
  | backlinkMissing
  | skiplinkMissing
  | invalidLogId
  | chainIntegrityFailure
  | panicNoEntries
  | panicSkiplinkNotFound
deriving DecidableEq, Repr

/-- Modelled from the spec: `determine_skiplink(pool, entry)` from the
entry_args module (not under src/) — "determine the skiplink hash the
*next* entry would need (apply the lipmaa rule to seq_num + 1)",
returning the resolved hash or absent; the lookup of a required but
absent skiplink entry is an unwrap panic in the source. -/
def determine_skiplink (db : Db) (entry : EntryRow) : Except PublishError (Option Nat) :=
  if isSkiplinkRequired (entry.seqNum + 1) then
    match entryAtSeqNum db.entries entry.author entry.logId (lipmaa (entry.seqNum + 1)) with
    | some row => .ok (some row.entryHash)
    | none => .error .panicSkiplinkNotFound
  else .ok none

/-- `publish_entry` from src/aquadoggo/src/rpc/methods/publish_entry.rs,
with the database threaded explicitly (second component of the
result).  Decoding/signature validation and `bamboo_rs_core::verify`
are external collaborators; the verifier is passed in as `verify`
over (entry bytes, message bytes, skiplink bytes, backlink bytes).
Order faithful to the source: log-id check, backlink fetch, skiplink
fetch, chain verification, registry insert (only when the pair was
unregistered), entry append, latest-entry read-back, next-skiplink
determination, response. -/
def publish_entry (verify : Nat → Nat → Option Nat → Option Nat → Bool)
    (db : Db) (req : PublishEntryRequest) :
    Except PublishError PublishEntryResponse × Db :=
  let e := req.entryEncoded
  let schemaLogId := logGet db.logs e.author req.messageEncoded.schema
  if schemaLogId.isSome && schemaLogId != some e.logId then
    (.error .invalidLogId, db)
  else
    match (if e.seqNum != 1 then
             match entryAtSeqNum db.entries e.author e.logId (e.seqNum - 1) with
             | some link => Except.ok (some link.entryBytes)
             | none => Except.error PublishError.backlinkMissing
           else Except.ok none) with
    | .error err => (.error err, db)
    | .ok backlinkBytes =>
      match (if e.seqNum != 1 then
               match entryAtSeqNum db.entries e.author e.logId (lipmaa e.seqNum) with
               | some link => Except.ok (some link.entryBytes)
               | none => Except.error PublishError.skiplinkMissing
             else Except.ok none) with
      | .error err => (.error err, db)
      | .ok skiplinkBytes =>
        if verify e.bytes req.messageEncoded.bytes skiplinkBytes backlinkBytes then
          let db1 := if schemaLogId.isNone then
              { db with logs := db.logs ++ [⟨e.author, req.messageEncoded.schema, e.logId⟩] }
            else db
          let db2 := { db1 with entries := db1.entries ++
              [⟨e.author, e.bytes, e.entryHash, e.logId,
                req.messageEncoded.bytes, req.messageEncoded.hash, e.seqNum⟩] }
          match entryLatest db2.entries e.author e.logId with
          | none => (.error .panicNoEntries, db2)
          | some latest =>
            match determine_skiplink db2 latest with
            | .error err => (.error err, db2)
            | .ok skiplinkHash =>
              (.ok { entryHashBacklink := some e.entryHash,
                     entryHashSkiplink := skiplinkHash,
                     seqNum := latest.seqNum + 1,
                     logId := e.logId }, db2)
        else (.error .chainIntegrityFailure, db)

/-- Modelled from the spec: the next_seq_num a `getEntryArguments`
query reports for an (author, schema) pair — 1 when no log or no
entry exists yet, else the latest stored seq_num plus one. -/
def nextSeqNumFor (db : Db) (author schema : Nat) : Nat :=
  match logGet db.logs author schema with
  | none => 1
  | some logId =>
    match entryLatest db.entries author logId with
    | none => 1
    | some e => e.seqNum + 1

/-- A verifier that accepts everything (used to instantiate theorems
at concrete inputs). -/
def verifyAlways (_eb _mb : Nat) (_sl _bl : Option Nat) : Bool := true

/-- `EntryArgsRequest` from src/node/src/rpc/api.rs. -/
structure EntryArgsRequest where
  author : String
  schema : String
deriving DecidableEq, Repr

/-- `EntryArgsResponse` from src/node/src/rpc/api.rs. -/
structure EntryArgsResponse where
  encodedEntryBacklink : Option String
  encodedEntrySkiplink : Option String
  lastSeqNum : Nat
  logId : Nat
deriving DecidableEq, Repr

/-- The `panda_getEntryArguments` handler of src/node/src/rpc/api.rs
(`ApiService::new`): the service task ignores the request parameters
and answers every `GetEntryArgs` message with the same hardcoded
placeholder response. -/
def get_entry_args (_params : EntryArgsRequest) : EntryArgsResponse :=
  { encodedEntryBacklink := some "encoded_entry_backlink"
    encodedEntrySkiplink := some "skiplink"
    lastSeqNum := 1
    logId := 0 }

/-! ## Theorems -/

/-- The publish pipeline on the third entry of the source test's
5-entry chain: publishing seq_num 3 appends the entry and reports
seq_num 4 with the skiplink pointing at entry 1 (lipmaa 4 = 1). -/
theorem publish_entry_third_entry_vector :
    publish_entry verifyAlways
      ⟨[⟨7, 3, 5⟩],
       [⟨7, 501, 51, 5, 901, 91, 1⟩, ⟨7, 502, 52, 5, 902, 92, 2⟩]⟩
      ⟨⟨7, 53, 503, 5, 3⟩, ⟨3, 903, 93⟩⟩ =
    (.ok ⟨some 53, some 51, 4, 5⟩,
     ⟨[⟨7, 3, 5⟩],
      [⟨7, 501, 51, 5, 901, 91, 1⟩, ⟨7, 502, 52, 5, 902, 92, 2⟩,
       ⟨7, 503, 53, 5, 903, 93, 3⟩]⟩) := rfl

/-- The lipmaa rule on the vectors pinned by the publish_entry.rs
tests (entry 4 skiplinks to entry 1; 2, 3, 5 and 6 need no distinct
skiplink) and by the spec's seq_num-13 vector. -/
theorem lipmaa_test_vectors :
    lipmaa 2 = 1 ∧ lipmaa 3 = 2 ∧ lipmaa 4 = 1 ∧ lipmaa 5 = 4 ∧ lipmaa 13 = 4 ∧
    isSkiplinkRequired 4 = true ∧ isSkiplinkRequired 2 = false ∧
    isSkiplinkRequired 3 = false ∧ isSkiplinkRequired 5 = false ∧
    isSkiplinkRequired 6 = false := by decide

/-- C1: the source materializer has no seq_num ordering guard (its own
`@TODO: Check if sequence number is the next one to materialize`
records the gap): applying an Update whose seq_num (3) is lower than
the row's stored seq_num (5) overwrites the stored field values and
lowers the stored seq_num, instead of being a no-op. -/
theorem materialize_stale_update_overwrites :
    materialize ⟨[(0, [⟨1, 9, "new", "d", 5⟩])]⟩ 100 3 9
      ⟨.update, 0, some 1, some [("message", .text "old"), ("date", .text "d")]⟩ =
      .ok ⟨[(0, [⟨1, 9, "old", "d", 3⟩])]⟩ ∧
    (⟨1, 9, "old", "d", 3⟩ : Row) ≠ ⟨1, 9, "new", "d", 5⟩ := ⟨rfl, by decide⟩

/-- C5: the source materializer never removes or tombstones a row: a
Delete event for an existing row panics at `message.fields().unwrap()`
(Delete messages carry no fields) and the row is left live. -/
theorem materialize_delete_panics :
    materialize ⟨[(0, [⟨1, 9, "hello", "today", 1⟩])]⟩ 200 2 9
      ⟨.delete, 0, some 1, none⟩ = .error .missingFields := rfl

/-- C7: a missing "message" field, or a "message" field of a non-text
kind, hits a `panic!` in the materializer (`"Field does not exist!"` /
`"Unimplemented type"`), a process-terminating fault rather than a
recoverable reported error. -/
theorem materialize_bad_field_panics :
    materialize ⟨[]⟩ 100 1 9
      ⟨.create, 0, none, some [("date", .text "today")]⟩ = .error .fieldMissing ∧
    materialize ⟨[]⟩ 100 1 9
      ⟨.create, 0, none, some [("message", .boolean true), ("date", .text "today")]⟩ =
      .error .unimplementedType := ⟨rfl, rfl⟩

/-- C6 counterexample: an Update event whose target id (7) has no
existing row is not rejected — the materializer succeeds and inserts
a brand-new row for it. -/
theorem materialize_update_without_row_inserts :
    materialize ⟨[]⟩ 100 2 9
      ⟨.update, 0, some 7, some [("message", .text "hi"), ("date", .text "today")]⟩ =
    .ok ⟨[(0, [⟨7, 9, "hi", "today", 2⟩])]⟩ := rfl

/-- C6 (amended): whenever no row with the computed id exists, the
materializer inserts a new row with the message's field values,
author and seq_num, regardless of whether the event is a Create or an
Update. -/
theorem materialize_insert_when_absent (db : MatDb) (entryHash seqNum author : Nat)
    (msg : Message) (fl : List (String × MessageValue)) (m d : String) (id : Nat)
    (hf : msg.fields = some fl)
    (hid : (msg.action = .create ∧ id = entryHash) ∨
           (msg.action ≠ .create ∧ msg.id = some id))
    (hm : fieldsGet fl "message" = some (.text m))
    (hd : fieldsGet fl "date" = some (.text d))
    (hcount : ((getTable (ensureTable db msg.schema) msg.schema).filter
                 (fun r => r.id == id)).length ≠ 1) :
    materialize db entryHash seqNum author msg =
      .ok (setTable (ensureTable db msg.schema) msg.schema
        (getTable (ensureTable db msg.schema) msg.schema ++ [⟨id, author, m, d, seqNum⟩])) := by
  unfold materialize
  rcases hid with ⟨ha, hi⟩ | ⟨ha, hi⟩
  · subst hi
    simp only [hf, ha, hm, hd]
    simp [hcount]
  · cases hact : msg.action
    · exact absurd hact ha
    · simp only [hf, hact, hi, hm, hd]
      simp [hcount]
    · simp only [hf, hact, hi, hm, hd]
      simp [hcount]

/-- C6 witness: instantiating the amended statement on a concrete
Create event against an empty database. -/
theorem materialize_insert_when_absent_witness :
    materialize ⟨[]⟩ 100 1 9
      ⟨.create, 0, none, some [("message", .text "a"), ("date", .text "b")]⟩ =
    .ok ⟨[(0, [⟨100, 9, "a", "b", 1⟩])]⟩ :=
  materialize_insert_when_absent ⟨[]⟩ 100 1 9
    ⟨.create, 0, none, some [("message", .text "a"), ("date", .text "b")]⟩
    [("message", .text "a"), ("date", .text "b")] "a" "b" 100
    rfl (Or.inl ⟨rfl, rfl⟩) rfl rfl (by decide)

/-- C9: when a row with the event's id already exists, the
materializer's UPDATE writes only the message, date and seq_num
columns: the resulting table is the pointwise image of the old one
under `applyUpdate`, and `applyUpdate` never changes a row's id or
author, whatever the event's author or action. -/
theorem materialize_update_frame (db : MatDb) (entryHash seqNum author : Nat)
    (msg : Message) (fl : List (String × MessageValue)) (m d : String) (id : Nat)
    (hf : msg.fields = some fl)
    (hid : (msg.action = .create ∧ id = entryHash) ∨
           (msg.action ≠ .create ∧ msg.id = some id))
    (hm : fieldsGet fl "message" = some (.text m))
    (hd : fieldsGet fl "date" = some (.text d))
    (hcount : ((getTable (ensureTable db msg.schema) msg.schema).filter
                 (fun r => r.id == id)).length = 1) :
    materialize db entryHash seqNum author msg =
      .ok (setTable (ensureTable db msg.schema) msg.schema
        ((getTable (ensureTable db msg.schema) msg.schema).map (applyUpdate id m d seqNum))) ∧
    ∀ r : Row, (applyUpdate id m d seqNum r).id = r.id ∧
      (applyUpdate id m d seqNum r).author = r.author := by
  constructor
  · unfold materialize
    rcases hid with ⟨ha, hi⟩ | ⟨ha, hi⟩
    · subst hi
      simp only [hf, ha, hm, hd]
      simp [hcount]
    · cases hact : msg.action
      · exact absurd hact ha
      · simp only [hf, hact, hi, hm, hd]
        simp [hcount]
      · simp only [hf, hact, hi, hm, hd]
        simp [hcount]
  · intro r
    unfold applyUpdate
    split <;> simp

/-- C9 witness: a concrete Update against a one-row table rewrites the
message, date and seq_num columns in place, keeping id and author. -/
theorem materialize_update_frame_witness :
    materialize ⟨[(0, [⟨1, 9, "old", "d1", 1⟩])]⟩ 100 7 9
      ⟨.update, 0, some 1, some [("message", .text "new"), ("date", .text "d2")]⟩ =
    .ok ⟨[(0, [⟨1, 9, "new", "d2", 7⟩])]⟩ :=
  (materialize_update_frame ⟨[(0, [⟨1, 9, "old", "d1", 1⟩])]⟩ 100 7 9
    ⟨.update, 0, some 1, some [("message", .text "new"), ("date", .text "d2")]⟩
    [("message", .text "new"), ("date", .text "d2")] "new" "d2" 1
    rfl (Or.inr ⟨by decide, rfl⟩) rfl rfl (by decide)).1

/-- C2: when the registry already maps the entry's (author, schema) to
a log_id different from the claimed one, publish_entry fails with
InvalidLogId and returns the database untouched — the check precedes
every store mutation, so no entry is appended. -/
theorem publish_invalid_log_id (verify : Nat → Nat → Option Nat → Option Nat → Bool)
    (db : Db) (req : PublishEntryRequest) (existingLogId : Nat)
    (hget : logGet db.logs req.entryEncoded.author req.messageEncoded.schema =
      some existingLogId)
    (hne : existingLogId ≠ req.entryEncoded.logId) :
    publish_entry verify db req = (.error .invalidLogId, db) := by
  unfold publish_entry
  simp only [hget]
  simp [hne]

/-- C2 witness: registry maps (author 1, schema 2) to log 3; a request
claiming log 4 is rejected with InvalidLogId and the store is
unchanged. -/
theorem publish_invalid_log_id_witness :
    publish_entry verifyAlways ⟨[⟨1, 2, 3⟩], []⟩ ⟨⟨1, 10, 11, 4, 1⟩, ⟨2, 12, 13⟩⟩ =
      (.error .invalidLogId, ⟨[⟨1, 2, 3⟩], []⟩) :=
  publish_invalid_log_id verifyAlways ⟨[⟨1, 2, 3⟩], []⟩ ⟨⟨1, 10, 11, 4, 1⟩, ⟨2, 12, 13⟩⟩ 3
    rfl (by decide)

/-- C3: a publish with seq_num > 1 whose backlink entry (at seq_num - 1
in the same author/log) is absent from the entry store fails with
BacklinkMissing before any store mutation, so the log is unchanged
and a subsequent getEntryArguments still reports the same
next_seq_num as before the failed publish. -/
theorem publish_backlink_missing (verify : Nat → Nat → Option Nat → Option Nat → Bool)
    (db : Db) (req : PublishEntryRequest)
    (hseq : 1 < req.entryEncoded.seqNum)
    (hlog : logGet db.logs req.entryEncoded.author req.messageEncoded.schema = none ∨
            logGet db.logs req.entryEncoded.author req.messageEncoded.schema =
              some req.entryEncoded.logId)
    (hback : entryAtSeqNum db.entries req.entryEncoded.author req.entryEncoded.logId
               (req.entryEncoded.seqNum - 1) = none) :
    publish_entry verify db req = (.error .backlinkMissing, db) ∧
    nextSeqNumFor (publish_entry verify db req).2 req.entryEncoded.author
        req.messageEncoded.schema =
      nextSeqNumFor db req.entryEncoded.author req.messageEncoded.schema := by
  have hne : req.entryEncoded.seqNum ≠ 1 := by omega
  have h1 : publish_entry verify db req = (.error .backlinkMissing, db) := by
    unfold publish_entry
    rcases hlog with hl | hl <;>
      · simp only [hl]
        simp [hne, hback]
  exact ⟨h1, by rw [h1]⟩

/-- C3 witness: with log 5 registered for (author 7, schema 3) and an
empty entry store, publishing seq_num 2 fails with BacklinkMissing,
leaves the store unchanged, and getEntryArguments still reports
next_seq_num 1 for the pair. -/
theorem publish_backlink_missing_witness :
    publish_entry verifyAlways ⟨[⟨7, 3, 5⟩], []⟩ ⟨⟨7, 52, 502, 5, 2⟩, ⟨3, 902, 92⟩⟩ =
      (.error .backlinkMissing, ⟨[⟨7, 3, 5⟩], []⟩) ∧
    nextSeqNumFor
        (publish_entry verifyAlways ⟨[⟨7, 3, 5⟩], []⟩ ⟨⟨7, 52, 502, 5, 2⟩, ⟨3, 902, 92⟩⟩).2
        7 3 =
      nextSeqNumFor ⟨[⟨7, 3, 5⟩], []⟩ 7 3 :=
  publish_backlink_missing verifyAlways ⟨[⟨7, 3, 5⟩], []⟩ ⟨⟨7, 52, 502, 5, 2⟩, ⟨3, 902, 92⟩⟩
    (by decide) (Or.inr rfl) rfl

/-- The only error `determine_skiplink` can produce is the unwrap
panic on a required but absent skiplink entry. -/
theorem determine_skiplink_error_shape (db : Db) (e : EntryRow) (x : PublishError)
    (h : determine_skiplink db e = .error x) : x = .panicSkiplinkNotFound := by
  unfold determine_skiplink at h
  split at h
  · split at h <;> simp_all
  · simp_all

/-- A SkiplinkMissing failure can only come out of the skiplink lookup
block, which runs after the backlink lookup succeeded: whenever
publish_entry reports SkiplinkMissing, the backlink entry at
seq_num - 1 was found. -/
theorem publish_skiplink_after_backlink
    (verify2 : Nat → Nat → Option Nat → Option Nat → Bool)
    (db2 : Db) (req2 : PublishEntryRequest)
    (h : (publish_entry verify2 db2 req2).1 = .error .skiplinkMissing) :
    entryAtSeqNum db2.entries req2.entryEncoded.author req2.entryEncoded.logId
      (req2.entryEncoded.seqNum - 1) ≠ none := by
  by_cases hs : req2.entryEncoded.seqNum = 1
  · exfalso
    unfold publish_entry at h
    simp only [hs, bne_self_eq_false, Bool.false_eq_true, if_false] at h
    split at h
    · simp at h
    · split at h
      · split at h
        · simp at h
        · split at h
          · rename_i err heq
            have hx := determine_skiplink_error_shape _ _ _ heq
            simp at h
            simp_all
          · simp at h
      · simp at h
  · cases hbl : entryAtSeqNum db2.entries req2.entryEncoded.author req2.entryEncoded.logId
        (req2.entryEncoded.seqNum - 1) with
    | some r => simp [hbl]
    | none =>
      exfalso
      unfold publish_entry at h
      simp only [hbl] at h
      split at h
      · simp at h
      · simp [bne_iff_ne, hs] at h

/-- C10: when seq_num > 1 and both the backlink and the skiplink
entries are unresolvable, publish_entry reports BacklinkMissing — the
backlink block runs and returns first — and conversely a
SkiplinkMissing result is only ever produced after the backlink
lookup resolved. -/
theorem publish_backlink_checked_first
    (verify : Nat → Nat → Option Nat → Option Nat → Bool)
    (db : Db) (req : PublishEntryRequest)
    (hseq : 1 < req.entryEncoded.seqNum)
    (hlog : logGet db.logs req.entryEncoded.author req.messageEncoded.schema = none ∨
            logGet db.logs req.entryEncoded.author req.messageEncoded.schema =
              some req.entryEncoded.logId)
    (hback : entryAtSeqNum db.entries req.entryEncoded.author req.entryEncoded.logId
               (req.entryEncoded.seqNum - 1) = none)
    (_hskip : entryAtSeqNum db.entries req.entryEncoded.author req.entryEncoded.logId
               (lipmaa req.entryEncoded.seqNum) = none) :
    publish_entry verify db req = (.error .backlinkMissing, db) ∧
    ∀ (verify2 : Nat → Nat → Option Nat → Option Nat → Bool)
      (db2 : Db) (req2 : PublishEntryRequest),
      (publish_entry verify2 db2 req2).1 = .error .skiplinkMissing →
      entryAtSeqNum db2.entries req2.entryEncoded.author req2.entryEncoded.logId
        (req2.entryEncoded.seqNum - 1) ≠ none := by
  have hne : req.entryEncoded.seqNum ≠ 1 := by omega
  refine ⟨?_, publish_skiplink_after_backlink⟩
  unfold publish_entry
  rcases hlog with hl | hl <;>
    · simp only [hl]
      simp [hne, hback]

/-- C10 witness: with log 6 registered for (author 8, schema 4) and an
empty entry store, publishing seq_num 2 (backlink and skiplink both
unresolvable) fails with BacklinkMissing, not SkiplinkMissing. -/
theorem publish_backlink_checked_first_witness :
    publish_entry verifyAlways ⟨[⟨8, 4, 6⟩], []⟩ ⟨⟨8, 62, 602, 6, 2⟩, ⟨4, 904, 94⟩⟩ =
      (.error .backlinkMissing, ⟨[⟨8, 4, 6⟩], []⟩) :=
  (publish_backlink_checked_first verifyAlways ⟨[⟨8, 4, 6⟩], []⟩
    ⟨⟨8, 62, 602, 6, 2⟩, ⟨4, 904, 94⟩⟩ (by decide) (Or.inr rfl) rfl rfl).1

/-- Appending an entry with a strictly larger seq_num than everything
in the list makes it the latest. -/
theorem latestAux_append_max (l : List EntryRow) (new : EntryRow)
    (h : ∀ x ∈ l, x.seqNum < new.seqNum) : latestAux (l ++ [new]) = some new := by
  induction l with
  | nil => rfl
  | cons e rest ih =>
    have he := h e (List.mem_cons_self e rest)
    have hr : latestAux (rest ++ [new]) = some new :=
      ih (fun x hx => h x (List.mem_cons_of_mem e hx))
    show latestAux (e :: (rest ++ [new])) = some new
    simp only [latestAux, hr]
    rw [if_neg (by omega)]

/-- `Entry::latest` after appending an entry for the same (author,
log_id) with a seq_num above everything stored for that log returns
the appended entry. -/
theorem entryLatest_append_new (entries : List EntryRow) (new : EntryRow)
    (h : ∀ x ∈ entries, x.author = new.author → x.logId = new.logId →
           x.seqNum < new.seqNum) :
    entryLatest (entries ++ [new]) new.author new.logId = some new := by
  unfold entryLatest
  have hp : (new.author == new.author && new.logId == new.logId) = true := by simp
  rw [List.filter_append]
  have hone : List.filter (fun e => e.author == new.author && e.logId == new.logId)
      [new] = [new] := by simp
  rw [hone]
  apply latestAux_append_max
  intro x hx
  rw [List.mem_filter] at hx
  rcases hx with ⟨hmem, hcond⟩
  simp only [Bool.and_eq_true, beq_iff_eq] at hcond
  exact h x hmem hcond.1 hcond.2

/-- Shape of a successful `determine_skiplink`: the skiplink hash in
the result is absent when the next seq_num needs no distinct
skiplink, and otherwise is the hash of the stored entry at the lipmaa
position of the next seq_num. -/
theorem determine_skiplink_ok_shape (db : Db) (e : EntryRow) (sh : Option Nat)
    (h : determine_skiplink db e = .ok sh) :
    (isSkiplinkRequired (e.seqNum + 1) = false ∧ sh = none) ∨
    (isSkiplinkRequired (e.seqNum + 1) = true ∧
      ∃ r, entryAtSeqNum db.entries e.author e.logId (lipmaa (e.seqNum + 1)) = some r ∧
        sh = some r.entryHash) := by
  unfold determine_skiplink at h
  split at h
  · rename_i hreq
    right
    refine ⟨hreq, ?_⟩
    split at h
    · rename_i r hr
      exact ⟨r, hr, by simpa using h.symm⟩
    · simp at h
  · rename_i hreq
    left
    exact ⟨by simpa using hreq, by simpa using h.symm⟩

/-- C4: a successful publish of an entry with sequence number n
responds with backlink = hash of the entry just stored, next
sequence number n + 1, the log_id of the published entry, and the
skiplink the next entry needs (the hash of the stored entry at the
lipmaa position of n + 1 when one is required, absent otherwise);
in particular, publishing the first entry (seq_num 1) of a fresh
(author, schema) pair succeeds with next_seq_num 2 and no skiplink. -/
theorem publish_success_response :
    (∀ (verify : Nat → Nat → Option Nat → Option Nat → Bool)
       (db : Db) (req : PublishEntryRequest) (resp : PublishEntryResponse) (db' : Db),
       publish_entry verify db req = (.ok resp, db') →
       (∀ x ∈ db.entries, x.author = req.entryEncoded.author →
          x.logId = req.entryEncoded.logId → x.seqNum < req.entryEncoded.seqNum) →
       resp.entryHashBacklink = some req.entryEncoded.entryHash ∧
       resp.seqNum = req.entryEncoded.seqNum + 1 ∧
       resp.logId = req.entryEncoded.logId ∧
       ((isSkiplinkRequired (req.entryEncoded.seqNum + 1) = false ∧
         resp.entryHashSkiplink = none) ∨
        (isSkiplinkRequired (req.entryEncoded.seqNum + 1) = true ∧
         ∃ r, entryAtSeqNum db'.entries req.entryEncoded.author req.entryEncoded.logId
                (lipmaa (req.entryEncoded.seqNum + 1)) = some r ∧
              resp.entryHashSkiplink = some r.entryHash))) ∧
    (∀ (verify : Nat → Nat → Option Nat → Option Nat → Bool)
       (db : Db) (req : PublishEntryRequest),
       req.entryEncoded.seqNum = 1 →
       logGet db.logs req.entryEncoded.author req.messageEncoded.schema = none →
       (∀ x ∈ db.entries,
          ¬(x.author = req.entryEncoded.author ∧ x.logId = req.entryEncoded.logId)) →
       verify req.entryEncoded.bytes req.messageEncoded.bytes none none = true →
       ∃ resp db', publish_entry verify db req = (.ok resp, db') ∧
         resp.seqNum = 2 ∧ resp.entryHashSkiplink = none ∧
         resp.entryHashBacklink = some req.entryEncoded.entryHash) := by
  constructor
  · intro verify db req resp db' hok hmax
    simp only [publish_entry] at hok
    split at hok
    · simp at hok
    · split at hok
      · simp at hok
      · split at hok
        · simp at hok
        · split at hok
          · split at hok
            · simp at hok
            · rename_i latest hlat
              split at hok
              · simp at hok
              · rename_i sh hds
                have hent : (if (logGet db.logs req.entryEncoded.author
                      req.messageEncoded.schema).isNone = true then
                      { db with logs := db.logs ++ [⟨req.entryEncoded.author,
                          req.messageEncoded.schema, req.entryEncoded.logId⟩] }
                    else db).entries = db.entries := by
                  split <;> rfl
                rw [hent] at hlat
                have hnew : entryLatest (db.entries ++
                    [⟨req.entryEncoded.author, req.entryEncoded.bytes,
                      req.entryEncoded.entryHash, req.entryEncoded.logId,
                      req.messageEncoded.bytes, req.messageEncoded.hash,
                      req.entryEncoded.seqNum⟩])
                    req.entryEncoded.author req.entryEncoded.logId =
                    some ⟨req.entryEncoded.author, req.entryEncoded.bytes,
                      req.entryEncoded.entryHash, req.entryEncoded.logId,
                      req.messageEncoded.bytes, req.messageEncoded.hash,
                      req.entryEncoded.seqNum⟩ :=
                  entryLatest_append_new _ _ (fun x hx ha hl => hmax x hx ha hl)
                rw [hnew] at hlat
                obtain rfl : latest = ⟨req.entryEncoded.author, req.entryEncoded.bytes,
                    req.entryEncoded.entryHash, req.entryEncoded.logId,
                    req.messageEncoded.bytes, req.messageEncoded.hash,
                    req.entryEncoded.seqNum⟩ := by
                  injection hlat.symm
                simp only [Prod.mk.injEq, Except.ok.injEq] at hok
                obtain ⟨hresp, hdb⟩ := hok
                subst hresp
                subst hdb
                refine ⟨rfl, rfl, rfl, ?_⟩
                have hshape := determine_skiplink_ok_shape _ _ _ hds
                simp only [hent] at hshape ⊢
                simpa using hshape
          · simp at hok
  · intro verify db req h1 hlg hno hv
    have hlatest : entryLatest (db.entries ++
        [⟨req.entryEncoded.author, req.entryEncoded.bytes,
          req.entryEncoded.entryHash, req.entryEncoded.logId,
          req.messageEncoded.bytes, req.messageEncoded.hash,
          req.entryEncoded.seqNum⟩])
        req.entryEncoded.author req.entryEncoded.logId =
        some ⟨req.entryEncoded.author, req.entryEncoded.bytes,
          req.entryEncoded.entryHash, req.entryEncoded.logId,
          req.messageEncoded.bytes, req.messageEncoded.hash,
          req.entryEncoded.seqNum⟩ :=
      entryLatest_append_new _ _ (fun x hx ha hl => absurd ⟨ha, hl⟩ (hno x hx))
    refine ⟨⟨some req.entryEncoded.entryHash, none, req.entryEncoded.seqNum + 1,
        req.entryEncoded.logId⟩,
      ⟨db.logs ++ [⟨req.entryEncoded.author, req.messageEncoded.schema,
          req.entryEncoded.logId⟩],
        db.entries ++ [⟨req.entryEncoded.author, req.entryEncoded.bytes,
          req.entryEncoded.entryHash, req.entryEncoded.logId,
          req.messageEncoded.bytes, req.messageEncoded.hash,
          req.entryEncoded.seqNum⟩]⟩, ?_, by simp [h1], rfl, rfl⟩
    unfold publish_entry
    simp only [hlg, h1, Option.isSome_none, Bool.false_and, Bool.false_eq_true,
      if_false, bne_self_eq_false, Option.isNone_none, hv, if_true, ite_true]
    rw [h1] at hlatest
    simp only [hlatest]
    have hds : determine_skiplink
        ⟨db.logs ++ [⟨req.entryEncoded.author, req.messageEncoded.schema,
            req.entryEncoded.logId⟩],
          db.entries ++ [⟨req.entryEncoded.author, req.entryEncoded.bytes,
            req.entryEncoded.entryHash, req.entryEncoded.logId,
            req.messageEncoded.bytes, req.messageEncoded.hash, 1⟩]⟩
        ⟨req.entryEncoded.author, req.entryEncoded.bytes,
          req.entryEncoded.entryHash, req.entryEncoded.logId,
          req.messageEncoded.bytes, req.messageEncoded.hash, 1⟩ = .ok none := by
      unfold determine_skiplink
      dsimp only
      rw [if_neg (by decide)]
    simp only [hds]

/-- C4 witness: publishing the first entry (seq_num 1, hash 50) of the
fresh pair (author 7, schema 3) on log 5 against an empty database:
the response carries backlink 50, next seq_num 2, log_id 5 and no
skiplink. -/
theorem publish_success_response_witness :
    (PublishEntryResponse.mk (some 50) none 2 5).entryHashBacklink = some 50 ∧
    (PublishEntryResponse.mk (some 50) none 2 5).seqNum = 1 + 1 ∧
    (PublishEntryResponse.mk (some 50) none 2 5).logId = 5 ∧
    ((isSkiplinkRequired (1 + 1) = false ∧
      (PublishEntryResponse.mk (some 50) none 2 5).entryHashSkiplink = none) ∨
     (isSkiplinkRequired (1 + 1) = true ∧
      ∃ r, entryAtSeqNum (⟨[⟨7, 3, 5⟩], [⟨7, 500, 50, 5, 900, 90, 1⟩]⟩ : Db).entries 7 5
             (lipmaa (1 + 1)) = some r ∧
           (PublishEntryResponse.mk (some 50) none 2 5).entryHashSkiplink =
             some r.entryHash)) :=
  publish_success_response.1 verifyAlways ⟨[], []⟩ ⟨⟨7, 50, 500, 5, 1⟩, ⟨3, 900, 90⟩⟩
    ⟨some 50, none, 2, 5⟩ ⟨[⟨7, 3, 5⟩], [⟨7, 500, 50, 5, 900, 90, 1⟩]⟩ rfl (by simp)

/-- C8 counterexample: for a node with no state at all (the stub has
no storage), the getEntryArguments handler answers the request
(author "world", schema "test") with backlink and skiplink strings
that are present, not absent. -/
theorem get_entry_args_links_present :
    get_entry_args ⟨"world", "test"⟩ =
      ⟨some "encoded_entry_backlink", some "skiplink", 1, 0⟩ ∧
    (get_entry_args ⟨"world", "test"⟩).encodedEntryBacklink ≠ none ∧
    (get_entry_args ⟨"world", "test"⟩).encodedEntrySkiplink ≠ none :=
  ⟨rfl, by simp [get_entry_args], by simp [get_entry_args]⟩

/-- C8 (amended): for every (author, schema) request, the node's
getEntryArguments returns last_seq_num 1 and log_id 0 together with
hardcoded placeholder backlink and skiplink strings, present
regardless of whether any log exists. -/
theorem get_entry_args_constant (params : EntryArgsRequest) :
    get_entry_args params =
      ⟨some "encoded_entry_backlink", some "skiplink", 1, 0⟩ := rfl

/-- C8 witness: the amended statement at a concrete request. -/
theorem get_entry_args_constant_witness :
    get_entry_args ⟨"a", "b"⟩ =
      ⟨some "encoded_entry_backlink", some "skiplink", 1, 0⟩ :=
  get_entry_args_constant ⟨"a", "b"⟩
